import Mathlib

/-!
Verification of the stdchat message model, transport fan-out, service registry
and connection provider against their specification.

Strings from the Go source are modelled as lists of characters (`Str`), so that
byte/character indexing and slicing in the source translate directly.  The
opaque JSON encode/decode primitive is out of scope per the spec; raw inputs
are therefore modelled by the decode results they produce for each target
shape.
-/

namespace Stdchat

/-- Strings of the modelled program. -/
abbrev Str := List Char

/-- Shorthand to write `Str` literals. -/
def str (s : String) : Str := s.toList

/- ### common.go: IDInfo, TypeInfo, IsType -/

/-- `IDInfo` from common.go: ID, optional name, optional display name. -/
structure IDInfo where
  id : Str
  name : Str
  displayName : Str
deriving DecidableEq

/-- `IDInfo.GetName` from common.go: the name, or the ID if no name. -/
def IDInfo.GetName (x : IDInfo) : Str :=
  if x.name != [] then x.name else x.id

/-- `IDInfo.GetDisplayName` from common.go: the display name, or `GetName`. -/
def IDInfo.GetDisplayName (x : IDInfo) : Str :=
  if x.displayName != [] then x.displayName else x.GetName

/-- `IDInfo.SetName` from common.go: stores the name only if it differs from
the ID, then stores the display name only if it differs from the
(just updated) `GetName`. -/
def IDInfo.SetName (x : IDInfo) (name displayName : Str) : IDInfo :=
  let x1 := if x.id != name then { x with name := name } else { x with name := [] }
  if x1.GetName != displayName then { x1 with displayName := displayName }
  else { x1 with displayName := [] }

/-- `IsType` from common.go:
`part == msgType || len(part) < len(msgType) && msgType[len(part)] == '/' && part == msgType[:len(part)]`. -/
def IsType (msgType part : Str) : Bool :=
  part == msgType ||
    (decide (part.length < msgType.length) &&
      (msgType.getD part.length ' ' == '/') &&
      part == msgType.take part.length)

/-- `TypeInfo` from common.go. -/
structure TypeInfo where
  type : Str
deriving DecidableEq

/-- `TypeInfo.IsType` method from common.go. -/
def TypeInfo.IsType (x : TypeInfo) (part : Str) : Bool :=
  Stdchat.IsType x.type part

end Stdchat

namespace Stdchat

/- ### Message model (msg.go sources and common.go) -/

/-- `EntityInfo` from common.go: embeds `IDInfo` and `TypeInfo`. -/
structure EntityInfo extends IDInfo, TypeInfo
deriving DecidableEq

/-- `Message` from common.go: a MIME `TypeInfo` plus content. -/
structure Message extends TypeInfo where
  content : Str
deriving DecidableEq

/-- `MessageInfo` from common.go: a message in various types/formats. -/
abbrev MessageInfo := List Message

/-- `KeyValueInfo` from common.go: `[2]string`, [0] key and [1] value. -/
abbrev KeyValueInfo := Str × Str

/-- `ValuesInfo` from common.go. -/
abbrev ValuesInfo := List KeyValueInfo

/-- `MediaInfo` from common.go (`Expires time.Time` modelled as `Nat`). -/
structure MediaInfo extends TypeInfo where
  name : Str
  url : Str
  thumbURL : Str
  expires : Nat
  values : ValuesInfo
deriving DecidableEq

/-- `BaseMsg` from the message source (`Time time.Time` modelled as `Nat`). -/
structure BaseMsg extends TypeInfo where
  id : Str
  protocol : Str
  time : Nat
  message : MessageInfo
  values : ValuesInfo
deriving DecidableEq

/-- `BaseMsg.IsMsg`: `msg.Type != ""`. -/
def BaseMsg.IsMsg (msg : BaseMsg) : Bool :=
  msg.type != []

/-- `NetMsg`: `BaseMsg` plus a network entity. -/
structure NetMsg extends BaseMsg where
  network : EntityInfo
deriving DecidableEq

/-- `NetMsg.IsMsg`: `msg.BaseMsg.IsMsg() && msg.Network.ID != ""`. -/
def NetMsg.IsMsg (msg : NetMsg) : Bool :=
  msg.toBaseMsg.IsMsg && msg.network.id != []

/-- `ChatMsg`: `NetMsg` plus destination/from/replyTo/attachments.
The Go field `From` keeps its capitalized name (`from` is reserved in Lean). -/
structure ChatMsg extends NetMsg where
  destination : EntityInfo
  From : EntityInfo
  replyToID : Str
  attachments : List MediaInfo
deriving DecidableEq

/-- `ChatMsg.IsMsg`:
`msg.BaseMsg.IsMsg() && msg.Network.ID != "" && (msg.Destination.ID != "" || msg.From.ID != "")`. -/
def ChatMsg.IsMsg (msg : ChatMsg) : Bool :=
  msg.toBaseMsg.IsMsg && msg.network.id != [] &&
    (msg.destination.id != [] || msg.From.id != [])

/-- `UserInfo` from the message source. -/
structure UserInfo where
  user : EntityInfo
  photo : MediaInfo
  values : ValuesInfo
deriving DecidableEq

/-- `MemberInfo` from the message source. -/
structure MemberInfo extends TypeInfo where
  info : UserInfo
  values : ValuesInfo
deriving DecidableEq

/-- `EnterMsg`: `ChatMsg` plus the entering member. -/
structure EnterMsg extends ChatMsg where
  member : MemberInfo
deriving DecidableEq

/-- `EnterMsg` declares no own `IsMsg`; Go promotes the embedded
`ChatMsg.IsMsg`. -/
def EnterMsg.IsMsg (msg : EnterMsg) : Bool :=
  msg.toChatMsg.IsMsg

/-- `LeaveMsg`: `ChatMsg` plus the leaving user. -/
structure LeaveMsg extends ChatMsg where
  user : EntityInfo
deriving DecidableEq

/-- `LeaveMsg` promotes the embedded `ChatMsg.IsMsg`. -/
def LeaveMsg.IsMsg (msg : LeaveMsg) : Bool :=
  msg.toChatMsg.IsMsg

/-- `UserChangedMsg`: `NetMsg` plus user-change fields. -/
structure UserChangedMsg extends NetMsg where
  user : EntityInfo
  info : UserInfo
  myself : Bool
deriving DecidableEq

/-- `UserChangedMsg` promotes the embedded `NetMsg.IsMsg`. -/
def UserChangedMsg.IsMsg (msg : UserChangedMsg) : Bool :=
  msg.toNetMsg.IsMsg

/-- `MemberChangedMsg`: `ChatMsg` plus member-change fields. -/
structure MemberChangedMsg extends ChatMsg where
  user : EntityInfo
  member : MemberInfo
deriving DecidableEq

/-- `MemberChangedMsg` promotes the embedded `ChatMsg.IsMsg`. -/
def MemberChangedMsg.IsMsg (msg : MemberChangedMsg) : Bool :=
  msg.toChatMsg.IsMsg

/-- `SubscribeMsg`: `ChatMsg` plus subscription fields. -/
structure SubscribeMsg extends ChatMsg where
  subject : MessageInfo
  photo : MediaInfo
  members : List MemberInfo
  myself : EntityInfo
  historyURL : Str
deriving DecidableEq

/-- `SubscribeMsg` promotes the embedded `ChatMsg.IsMsg`. -/
def SubscribeMsg.IsMsg (msg : SubscribeMsg) : Bool :=
  msg.toChatMsg.IsMsg

/-- `TypingMsg`: `ChatMsg` plus typing state (`Expires` as `Nat`). -/
structure TypingMsg extends ChatMsg where
  typing : Bool
  expires : Nat
deriving DecidableEq

/-- `TypingMsg` promotes the embedded `ChatMsg.IsMsg`. -/
def TypingMsg.IsMsg (msg : TypingMsg) : Bool :=
  msg.toChatMsg.IsMsg

/-- `ConnMsg`: `NetMsg` plus connection entity, state and cause.
`ConnState` is a string type in Go, modelled as `Str`. -/
structure ConnMsg extends NetMsg where
  connection : EntityInfo
  state : Str
  cause : Str
deriving DecidableEq

/-- `ConnMsg` promotes the embedded `NetMsg.IsMsg`. -/
def ConnMsg.IsMsg (msg : ConnMsg) : Bool :=
  msg.toNetMsg.IsMsg

/-- Modelled from the spec: the `CmdMsg` struct definition is code of this
repository that is not under src/ (only its callers are). Per §3:
`CmdMsg` = BaseMsg + `{network?: EntityInfo, command, args[]}`. -/
structure CmdMsg extends BaseMsg where
  network : EntityInfo
  command : Str
  args : List Str
deriving DecidableEq

/-- Modelled from the spec: `CmdMsg` is valid iff BaseMsg valid AND
`command != ""` (§3). -/
def CmdMsg.IsMsg (msg : CmdMsg) : Bool :=
  msg.toBaseMsg.IsMsg && msg.command != []

/- ### msgenc.go: polymorphic decode -/

/-- Opaque payload of a JSON-level decode error (`DecodeMsgError`). -/
abbrev DErr := Str

/-- The JSON primitive is out of scope per the spec (an opaque
serialize/deserialize contract), so one raw byte input is modelled by the
decode results `DecodeMsg` produces for it at each target shape. -/
structure RawParse where
  asChat : Except DErr ChatMsg
  asEnter : Except DErr EnterMsg
  asLeave : Except DErr LeaveMsg
  asUserChanged : Except DErr UserChangedMsg
  asMemberChanged : Except DErr MemberChangedMsg
  asSubscribe : Except DErr SubscribeMsg
  asTyping : Except DErr TypingMsg
  asConn : Except DErr ConnMsg
  asCmd : Except DErr CmdMsg

/-- The concrete message shapes `ParseBaseMsg` can return (its Go result is
the `BaseMsger` interface). -/
inductive Parsed where
  | enter (m : EnterMsg)
  | leave (m : LeaveMsg)
  | userChanged (m : UserChangedMsg)
  | memberChanged (m : MemberChangedMsg)
  | subscribe (m : SubscribeMsg)
  | typing (m : TypingMsg)
  | conn (m : ConnMsg)
  | cmd (m : CmdMsg)
  | chat (m : ChatMsg)
  | net (m : NetMsg)
  | base (m : BaseMsg)
deriving DecidableEq

/-- The two error classes of `ParseBaseMsg`: a JSON-level load error
(`DecodeMsgError`, "message load error") and the distinct
"not a valid message" error. -/
inductive ParseErr where
  | load (e : DErr)
  | notValid
deriving DecidableEq

/-- Result of `ParseBaseMsg`.  Go returns `(msg, err)`; a non-nil error is a
failure regardless of the returned msg value, so the result is modelled as
`Except`. -/
abbrev ParseResult := Except ParseErr Parsed

/-- `reparseBaseMsg` from msgenc.go: re-decode the same raw bytes into the
concrete shape, then re-validate with the shape's `IsMsg`; a parseable but
invalid value is the "not a valid message" error, not a success. -/
def reparseBaseMsg {α : Type} (dec : Except DErr α) (isValid : α → Bool)
    (wrap : α → Parsed) : ParseResult :=
  match dec with
  | .error e => .error (.load e)
  | .ok m => if isValid m then .ok (wrap m) else .error .notValid

/-- `ParseBaseMsg` from msgenc.go: decode as `ChatMsg` to read the type tag,
dispatch by tag-prefix match in the fixed source order, else apply the
default rules. -/
def ParseBaseMsg (r : RawParse) : ParseResult :=
  match r.asChat with
  | .error e => .error (.load e)
  | .ok msg =>
    if IsType msg.type (str "enter") then
      reparseBaseMsg r.asEnter EnterMsg.IsMsg Parsed.enter
    else if IsType msg.type (str "leave") then
      reparseBaseMsg r.asLeave LeaveMsg.IsMsg Parsed.leave
    else if IsType msg.type (str "user-changed") then
      reparseBaseMsg r.asUserChanged UserChangedMsg.IsMsg Parsed.userChanged
    else if IsType msg.type (str "member-changed") then
      reparseBaseMsg r.asMemberChanged MemberChangedMsg.IsMsg Parsed.memberChanged
    else if IsType msg.type (str "subscribe") || IsType msg.type (str "unsubscribe") then
      reparseBaseMsg r.asSubscribe SubscribeMsg.IsMsg Parsed.subscribe
    else if IsType msg.type (str "typing") then
      reparseBaseMsg r.asTyping TypingMsg.IsMsg Parsed.typing
    else if IsType msg.type (str "conn-state") then
      reparseBaseMsg r.asConn ConnMsg.IsMsg Parsed.conn
    else if IsType msg.type (str "cmd") then
      reparseBaseMsg r.asCmd CmdMsg.IsMsg Parsed.cmd
    else if msg.IsMsg then
      .ok (.chat msg)
    else if msg.toBaseMsg.IsMsg then
      if msg.network.id != [] then
        .ok (.net ⟨msg.toBaseMsg, msg.network⟩)
      else
        .ok (.base msg.toBaseMsg)
    else
      .error .notValid

/-- Spec-side definition, from the claim's words: the fixed, ordered table of
tag-prefix matchers (enter, leave, user-changed, member-changed,
subscribe/unsubscribe, typing, conn-state, cmd), each entry re-decoding into
its concrete shape with re-validation. -/
def parseTable (r : RawParse) : List ((Str → Bool) × ParseResult) :=
  [ (fun t => IsType t (str "enter"),
      reparseBaseMsg r.asEnter EnterMsg.IsMsg Parsed.enter),
    (fun t => IsType t (str "leave"),
      reparseBaseMsg r.asLeave LeaveMsg.IsMsg Parsed.leave),
    (fun t => IsType t (str "user-changed"),
      reparseBaseMsg r.asUserChanged UserChangedMsg.IsMsg Parsed.userChanged),
    (fun t => IsType t (str "member-changed"),
      reparseBaseMsg r.asMemberChanged MemberChangedMsg.IsMsg Parsed.memberChanged),
    (fun t => IsType t (str "subscribe") || IsType t (str "unsubscribe"),
      reparseBaseMsg r.asSubscribe SubscribeMsg.IsMsg Parsed.subscribe),
    (fun t => IsType t (str "typing"),
      reparseBaseMsg r.asTyping TypingMsg.IsMsg Parsed.typing),
    (fun t => IsType t (str "conn-state"),
      reparseBaseMsg r.asConn ConnMsg.IsMsg Parsed.conn),
    (fun t => IsType t (str "cmd"),
      reparseBaseMsg r.asCmd CmdMsg.IsMsg Parsed.cmd) ]

/-- Spec-side: the result of the first table entry whose matcher accepts the
type tag, if any. -/
def firstMatchResult (t : Str) : List ((Str → Bool) × ParseResult) → Option ParseResult
  | [] => none
  | e :: rest => if e.1 t then some e.2 else firstMatchResult t rest

/-- Spec-side, from the claim's words: the default rules when no table entry
matches — a fully valid chat message is returned as-is; an input valid at the
base level is returned as a bare `NetMsg` when its network ID is non-empty
and as a bare `BaseMsg` otherwise; anything else is the
"not a valid message" error. -/
def parseDefaultRules (msg : ChatMsg) : ParseResult :=
  if msg.IsMsg then
    .ok (.chat msg)
  else if msg.toBaseMsg.IsMsg then
    if msg.network.id != [] then
      .ok (.net ⟨msg.toBaseMsg, msg.network⟩)
    else
      .ok (.base msg.toBaseMsg)
  else
    .error .notValid

/-- Spec-side definition of the whole decode algorithm, following the claim:
read the tag from the general chat shape, take the first match of the ordered
table, fall back to the default rules. -/
def parseBaseMsgSpec (r : RawParse) : ParseResult :=
  match r.asChat with
  | .error e => .error (.load e)
  | .ok msg => (firstMatchResult msg.type (parseTable r)).getD (parseDefaultRules msg)

/- ### service/service.go: client registry -/

deriving instance DecidableEq for Except

/-- A registered session (a `Networker`).  `tag` models Go interface pointer
identity; `startResult` is the outcome its `Start` returns. -/
structure Client where
  tag : Nat
  networkID : Str
  connID : Str
  startResult : Except Str Unit
deriving DecidableEq

/-- The `Service` state relevant to registration: the atomic closed flag and
the client list. -/
structure ServiceState where
  closed : Bool
  clients : List Client
deriving DecidableEq

/-- `Service.addClient` from service/service.go, verbatim: the loop variable
`client` shadows the parameter `client` in the Go source
(`for _, client := range svc.clients { if client.NetworkID() == client.NetworkID() ... }`),
so the duplicate-identity check compares each registered session's network ID
with itself. -/
def addClient (svc : ServiceState) (client : Client) : Except Str ServiceState :=
  if svc.closed then .error (str "service is closed")
  else if svc.clients.any (fun client => client.networkID == client.networkID) then
    .error (str "network ID is in use")
  else .ok { svc with clients := svc.clients ++ [client] }

/-- `Service.removeClient`: find the first entry equal to `client`, replace it
with the last entry and truncate by one; no-op when absent. -/
def removeClient (svc : ServiceState) (client : Client) : ServiceState :=
  match svc.clients.findIdx? (fun xc => xc == client) with
  | none => svc
  | some i =>
    let ilast := svc.clients.length - 1
    { svc with clients := (svc.clients.set i (svc.clients.getD ilast client)).take ilast }

/-- `Service.Login` from service/service.go: construct the client (the
serialized `newClient` call, whose outcome is the `construct` argument), then
`addClient`, then `Start`; a `Start` failure removes the client again and
surfaces the error. -/
def Login (svc : ServiceState) (construct : Except Str Client) :
    ServiceState × Except Str Client :=
  match construct with
  | .error e => (svc, .error e)
  | .ok client =>
    match addClient svc client with
    | .error e => (svc, .error e)
    | .ok svc1 =>
      match client.startResult with
      | .error e => (removeClient svc1 client, .error e)
      | .ok _ => (svc1, .ok client)

/- ### service/transport.go: multi transport fan-out -/

/-- One registered sink, with the outcome its `Publish` returns for the
published payload: `none` = success, `some e` = error with text `e`. -/
structure Sink where
  id : Nat
  pubErr : Option Str
deriving DecidableEq

/-- `SingleTransportError` from service/transport.go: wraps the failing
transport and its error. -/
structure SingleTransportError where
  transport : Sink
  err : Str
deriving DecidableEq

/-- The error value `MultiTransport.Publish` returns when sinks failed:
`*SingleTransportError` or `*MultiTransportError`. -/
inductive TpError where
  | single (e : SingleTransportError)
  | multi (es : List SingleTransportError)
deriving DecidableEq

/-- `multiTpErrorCollector` from service/transport.go. -/
structure multiTpErrorCollector where
  sterr : Option SingleTransportError
  mterr : List SingleTransportError
deriving DecidableEq

/-- `multiTpErrorCollector.Add`: append when already multiple; promote the
stored single error to a two-element multi on the second error; store the
first error as the single error. -/
def multiTpErrorCollector.Add (mec : multiTpErrorCollector) (tx : Sink)
    (err : Str) : multiTpErrorCollector :=
  let thiserr : SingleTransportError := ⟨tx, err⟩
  if mec.mterr != [] then { mec with mterr := mec.mterr ++ [thiserr] }
  else
    match mec.sterr with
    | some s => { mec with mterr := [s, thiserr] }
    | none => { mec with sterr := some thiserr }

/-- `multiTpErrorCollector.GetError`: the multi error if collected, else the
single error if collected, else nil. -/
def multiTpErrorCollector.GetError (mec : multiTpErrorCollector) : Option TpError :=
  if mec.mterr != [] then some (.multi mec.mterr)
  else
    match mec.sterr with
    | some s => some (.single s)
    | none => none

/-- `MultiTransportError.Error` from service/transport.go: the first error's
text, plus " (and N-1 more)" when there is more than one.  (Go indexes
`Errors[0]` unconditionally; the collector only ever builds it non-empty, so
the `headD` default is never used where this is applied.) -/
def MultiTransportError.errorText (errors : List SingleTransportError) : Str :=
  let msg := (errors.headD ⟨⟨0, none⟩, []⟩).err
  if errors.length > 1 then
    msg ++ str " (and " ++ str (toString (errors.length - 1)) ++ str " more)"
  else msg

/-- Body of the `MultiTransport.Publish` loop from service/transport.go: one
attempt of `tx.Publish` — the attempted sink is recorded in order and a
failure is added to the collector without stopping the loop. -/
def publishStep (acc : List Sink × multiTpErrorCollector) (tx : Sink) :
    List Sink × multiTpErrorCollector :=
  match tx.pubErr with
  | some e => (acc.1 ++ [tx], acc.2.Add tx e)
  | none => (acc.1 ++ [tx], acc.2)

/-- `MultiTransport.Publish` from service/transport.go: call `Publish` on
every registered transport in order, collecting failures into a
`multiTpErrorCollector`; the first component records each attempted sink in
order, the second is `mec.GetError()`. -/
def MultiTransport.Publish (transports : List Sink) : List Sink × Option TpError :=
  let res := transports.foldl publishStep ([], ⟨none, []⟩)
  (res.1, res.2.GetError)

/-- Spec-side helper: folding `Add` over a list of failures. -/
def addFold (c : multiTpErrorCollector) (es : List SingleTransportError) :
    multiTpErrorCollector :=
  es.foldl (fun mec f => mec.Add f.transport f.err) c

/-- Spec-side: the failing sinks in order, each paired with its error. -/
def failuresOf (transports : List Sink) : List SingleTransportError :=
  (transports.filter (fun tx => tx.pubErr.isSome)).map
    (fun tx => ⟨tx, tx.pubErr.getD []⟩)

/- ### Connection provider (the provider source file): password gate -/

/-- The provider `Options` relevant to authentication. -/
structure Options where
  password : Str
  autoPassword : Bool
deriving DecidableEq

/-- The `provider` struct's password state guarded by `p.mx`, together with
the read-only options. -/
structure Provider where
  opts : Options
  password : Str
  passwordDisabled : Bool
deriving DecidableEq

/-- `newProvider`'s initialization: `password: opts.Password`, skip token not
yet consumed. -/
def newProvider (opts : Options) : Provider :=
  ⟨opts, opts.password, false⟩

/-- `provider.PasswordCheck` from the provider source: reject when disabled;
exact match succeeds; in auto-password mode an unset stored password is
bootstrapped to the presented credential, which succeeds. -/
def Provider.PasswordCheck (p : Provider) (pw : Str) : Bool × Provider :=
  if p.passwordDisabled then (false, p)
  else if pw == p.password then (true, p)
  else if p.password == [] && p.opts.autoPassword then (true, { p with password := pw })
  else (false, p)

/-- `provider.PasswordCheckSkip` from the provider source: in auto-password
mode, with the password never set and the skip not yet consumed, consume the
skip token (disabling the password permanently) and succeed. -/
def Provider.PasswordCheckSkip (p : Provider) : Bool × Provider :=
  if !p.opts.autoPassword then (false, p)
  else if p.passwordDisabled || p.password != [] then (false, p)
  else (true, { p with passwordDisabled := true })

/-- One call made against a provider's password state. -/
inductive Call where
  | check (pw : Str)
  | skip
deriving DecidableEq

/-- Perform one call. -/
def stepCall (p : Provider) : Call → Bool × Provider
  | .check pw => p.PasswordCheck pw
  | .skip => p.PasswordCheckSkip

/-- The provider state after a sequence of calls. -/
def stateAfter (p : Provider) (cs : List Call) : Provider :=
  cs.foldl (fun q c => (stepCall q c).2) p

/-- The boolean result of the i-th call in a sequence run from `p`. -/
def outputAt (p : Provider) (cs : List Call) (i : Nat) (hi : i < cs.length) : Bool :=
  (stepCall (stateAfter p (cs.take i)) (cs.get ⟨i, hi⟩)).1

/-- What the unauthenticated branch of the provider `Handler` does with one
inbound message (already run through `DecodeMsg` into a `CmdMsg`):
`errPrivate` = an error published on that connection's private transport only,
connection stays unauthenticated; `authedOk` = `provider-auth` succeeded
(authed set, transport added to the fan-out, confirmation emitted);
`authedSkip` = admitted by the one-time skip (authed set, transport added,
the triggering message continues to the dispatcher). -/
inductive HandleOutcome where
  | errPrivate
  | authedOk
  | authedSkip
deriving DecidableEq

/-- The unauthenticated branch of the provider `Handler` from the provider
source: decode failure → private error; `cmd`-typed `provider-auth` needs at
least one argument (`len(msg.Args) < 1` is rejected) and no network identity,
then the credential `Args[0]` is checked; any other message consults the
one-time skip; otherwise a private error. -/
def handleUnauthed (p : Provider) (dec : Except DErr CmdMsg) :
    HandleOutcome × Provider :=
  match dec with
  | .error _ => (.errPrivate, p)
  | .ok msg =>
    if IsType msg.type (str "cmd") && msg.command == str "provider-auth" then
      if msg.args.length < 1 then (.errPrivate, p)
      else if msg.network.id != [] then (.errPrivate, p)
      else
        match p.PasswordCheck (msg.args.headD []) with
        | (true, p1) => (.authedOk, p1)
        | (false, p1) => (.errPrivate, p1)
    else
      match p.PasswordCheckSkip with
      | (true, p1) => (.authedSkip, p1)
      | (false, p1) => (.errPrivate, p1)

/- ### service/service.go DispatchMsg -/

/-- A raw inbound byte message for `DispatchMsg`, modelled by the byte-level
property `bytes.Index(rawMsg, []byte("\x22cmd")) != -1` and the opaque decode
results of the same bytes as `CmdMsg` and as `ChatMsg`.  (Both decodes use
the same JSON config, which ignores unknown fields, so all combinations here
are realizable: e.g. a JSON object whose `replyTo` string contains an escaped
quote followed by `cmd` and whose `args` field is a number decodes as
`ChatMsg` but not as `CmdMsg`, while containing the byte substring.) -/
structure RawDispatch where
  containsCmdQuote : Bool
  asCmd : Except DErr CmdMsg
  asChat : Except DErr ChatMsg

/-- Where `DispatchMsg` delivers the message: the receiver's `CmdHandler`,
the receiver's `Handler`, or an error returned to the caller. -/
inductive DispatchResult where
  | cmdHandled (m : CmdMsg)
  | chatHandled (m : ChatMsg)
  | err (e : DErr)
deriving DecidableEq

/-- The `ChatMsg` fallback path of `DispatchMsg`. -/
def dispatchChatPath (r : RawDispatch) : DispatchResult :=
  match r.asChat with
  | .error e => .err e
  | .ok m => .chatHandled m

/-- `DispatchMsg` from service/service.go: when the raw bytes contain the
substring `"cmd` (a quote then `cmd`), unmarshal as `CmdMsg` — a decode error
is returned as-is — and route cmd-typed messages to `CmdHandler`; everything
else goes through the `ChatMsg` path to `Handler`. -/
def DispatchMsg (r : RawDispatch) : DispatchResult :=
  if r.containsCmdQuote then
    match r.asCmd with
    | .error e => .err e
    | .ok m =>
      if IsType m.type (str "cmd") then .cmdHandled m else dispatchChatPath r
  else dispatchChatPath r

/-- A concrete valid chat message (type "msg", network "n", from "f"). -/
def chatExample : ChatMsg :=
  ⟨⟨⟨⟨str "msg"⟩, str "1", [], 0, [], []⟩, ⟨⟨str "n", [], []⟩, ⟨str "net"⟩⟩⟩,
    ⟨⟨[], [], []⟩, ⟨[]⟩⟩, ⟨⟨str "f", [], []⟩, ⟨str "user"⟩⟩, [], []⟩

/-- A concrete cmd-typed command message (type "cmd", command "ping"). -/
def cmdExample : CmdMsg :=
  ⟨⟨⟨str "cmd"⟩, str "2", [], 0, [], []⟩, ⟨⟨[], [], []⟩, ⟨[]⟩⟩, str "ping", []⟩

/- ### Claim theorems for the entity model -/

/-- C8: for all type-tag strings `T` and `P`, `IsType T P` holds iff `T = P` or
`T` begins with `P` followed by the character '/'; moreover
`IsType "msg/foo.bar" "msg"` is true and `IsType "msg2" "msg"` is false. -/
theorem C8_IsType_characterization :
    (∀ T P : Str, IsType T P = true ↔ (T = P ∨ ∃ rest, T = P ++ '/' :: rest)) ∧
    IsType (str "msg/foo.bar") (str "msg") = true ∧
    IsType (str "msg2") (str "msg") = false := by
  refine ⟨fun T P => ?_, by decide, by decide⟩
  simp only [IsType, Bool.or_eq_true, Bool.and_eq_true, beq_iff_eq, decide_eq_true_eq]
  constructor
  · intro h
    cases h with
    | inl h => exact Or.inl h.symm
    | inr h =>
      obtain ⟨⟨hlt, hget⟩, htake⟩ := h
      refine Or.inr ⟨T.drop (P.length + 1), ?_⟩
      have hd : T.drop P.length = T.get ⟨P.length, hlt⟩ :: T.drop (P.length + 1) :=
        List.drop_eq_getElem_cons hlt
      have hg : T.getD P.length ' ' = T.get ⟨P.length, hlt⟩ :=
        List.getD_eq_getElem T ' ' hlt
      rw [hg] at hget
      calc T = T.take P.length ++ T.drop P.length := (List.take_append_drop _ _).symm
        _ = T.take P.length ++ (T.get ⟨P.length, hlt⟩ :: T.drop (P.length + 1)) := by
            rw [hd]
        _ = P ++ '/' :: T.drop (P.length + 1) := by rw [← htake, hget]
  · intro h
    cases h with
    | inl h => exact Or.inl h.symm
    | inr h =>
      obtain ⟨rest, h⟩ := h
      subst h
      refine Or.inr ⟨⟨by simp, ?_⟩, ?_⟩
      · rw [List.getD_append_right _ _ _ _ (le_refl _)]
        simp
      · exact (List.take_left P _).symm

/-- C9: `GetName` returns the stored name when non-empty and the ID otherwise;
`GetDisplayName` returns the stored display name when non-empty and `GetName`
otherwise; for ID "x" with no names set `GetDisplayName` is "x"; after
`SetName "x" "x"` both stored fields are empty; after `SetName "y" "z"`,
`GetName` is "y" and `GetDisplayName` is "z". -/
theorem C9_IDInfo_names :
    (∀ x : IDInfo, x.GetName = if x.name = [] then x.id else x.name) ∧
    (∀ x : IDInfo,
      x.GetDisplayName = if x.displayName = [] then x.GetName else x.displayName) ∧
    IDInfo.GetDisplayName ⟨str "x", [], []⟩ = str "x" ∧
    IDInfo.SetName ⟨str "x", [], []⟩ (str "x") (str "x") = ⟨str "x", [], []⟩ ∧
    (IDInfo.SetName ⟨str "x", [], []⟩ (str "y") (str "z")).GetName = str "y" ∧
    (IDInfo.SetName ⟨str "x", [], []⟩ (str "y") (str "z")).GetDisplayName = str "z" := by
  refine ⟨fun x => ?_, fun x => ?_, by decide, by decide, by decide, by decide⟩
  · simp only [IDInfo.GetName, bne_iff_ne, ne_eq, ite_not]
  · simp only [IDInfo.GetDisplayName, bne_iff_ne, ne_eq, ite_not]

/-- Helper: `Option.getD` distributes over an if-then-else of `some`. -/
theorem getD_ite {α : Type} (c : Prop) [Decidable c] (a : α) (o : Option α) (d : α) :
    (if c then some a else o).getD d = if c then a else o.getD d := by
  by_cases h : c <;> simp [h]

/-- C1: for every raw input, `ParseBaseMsg` first decodes it as the general
chat shape to read its type tag, then re-decodes the same input into the
concrete shape of the first tag-prefix match in the fixed order enter, leave,
user-changed, member-changed, subscribe/unsubscribe, typing, conn-state, cmd,
re-validating the re-decoded value (parseable but invalid re-decodes yield the
"not a valid message" error, not a success); with no table match, a fully
valid chat message is returned as-is, a base-level-valid input becomes a bare
`NetMsg` when its network ID is non-empty and a bare `BaseMsg` otherwise, and
anything else is the "not a valid message" error.  Stated as: the source
decoder equals the spec-side table-driven decoder. -/
theorem C1_ParseBaseMsg_follows_spec (r : RawParse) :
    ParseBaseMsg r = parseBaseMsgSpec r := by
  cases h : r.asChat with
  | error e => simp [ParseBaseMsg, parseBaseMsgSpec, h]
  | ok msg =>
    simp only [ParseBaseMsg, parseBaseMsgSpec, h, parseTable, firstMatchResult,
      getD_ite, Option.getD_none, parseDefaultRules]

/-- C2 (evidence for the registration bug): with an open registry holding one
session of network ID "a", registering a session whose network ID "b" differs
from every registered session's ID still fails with "network ID is in use",
because the shadowed loop variable in `addClient` compares each registered
session's network ID with itself. -/
theorem C2_addClient_rejects_distinct_identity :
    addClient ⟨false, [⟨0, str "a", [], .ok ()⟩]⟩ ⟨1, str "b", [], .ok ()⟩
      = .error (str "network ID is in use") ∧
    (str "a" == str "b") = false := by
  exact ⟨by decide, by decide⟩

/-- Helper: a successful `addClient` forces an open registry, and — because
the shadowed-variable comparison rejects whenever any session is registered —
an empty client list; the new state holds exactly the new client. -/
theorem addClient_ok_inv {svc svc1 : ServiceState} {client : Client}
    (h : addClient svc client = .ok svc1) :
    svc.closed = false ∧ svc.clients = [] ∧ svc1 = ⟨false, [client]⟩ := by
  obtain ⟨closed, clients⟩ := svc
  cases closed with
  | true => simp [addClient] at h
  | false =>
    cases clients with
    | nil =>
      have hh : Except.ok (⟨false, [client]⟩ : ServiceState) = .ok svc1 := h
      obtain rfl := Except.ok.inj hh
      exact ⟨rfl, rfl, rfl⟩
    | cons c cs => simp [addClient] at h

/-- Helper: removing the sole registered client leaves the registry empty. -/
theorem removeClient_singleton (client : Client) :
    removeClient ⟨false, [client]⟩ client = ⟨false, []⟩ := by
  simp [removeClient, List.findIdx?]

/-- C4: when session construction and registration succeed but `Start` of the
newly registered session fails, `Login` deregisters the session before
returning and surfaces the `Start` error, so the failed session is not
registered afterwards. -/
theorem C4_login_start_failure_deregisters
    (svc svc1 : ServiceState) (client : Client) (e : Str)
    (hadd : addClient svc client = .ok svc1)
    (hstart : client.startResult = .error e) :
    (Login svc (.ok client)).2 = .error e ∧
    client ∉ (Login svc (.ok client)).1.clients := by
  obtain ⟨hcl, hnil, hsvc1⟩ := addClient_ok_inv hadd
  subst hsvc1
  simp [Login, hadd, hstart, removeClient_singleton]

/-- Witness for C4 at a concrete registry and session. -/
theorem C4_login_start_failure_witness :
    (Login ⟨false, []⟩ (.ok ⟨0, str "n", [], .error (str "boom")⟩)).2
        = .error (str "boom") ∧
    (⟨0, str "n", [], .error (str "boom")⟩ : Client) ∉
      (Login ⟨false, []⟩ (.ok ⟨0, str "n", [], .error (str "boom")⟩)).1.clients :=
  C4_login_start_failure_deregisters ⟨false, []⟩
    ⟨false, [⟨0, str "n", [], .error (str "boom")⟩]⟩
    ⟨0, str "n", [], .error (str "boom")⟩ (str "boom") (by decide) rfl

/-- Helper: the publish fold records every sink, in order. -/
theorem publish_fold_attempts (transports : List Sink) (l : List Sink)
    (c : multiTpErrorCollector) :
    (transports.foldl publishStep (l, c)).1 = l ++ transports := by
  induction transports generalizing l c with
  | nil => simp
  | cons tx rest ih =>
    cases h : tx.pubErr with
    | none => simp [publishStep, h, ih]
    | some e => simp [publishStep, h, ih]

/-- Helper: the collector built by the publish fold is the fold of `Add` over
exactly the failing sinks, in order. -/
theorem publish_fold_collector (transports : List Sink) (l : List Sink)
    (c : multiTpErrorCollector) :
    (transports.foldl publishStep (l, c)).2 = addFold c (failuresOf transports) := by
  induction transports generalizing l c with
  | nil => simp [addFold, failuresOf]
  | cons tx rest ih =>
    cases h : tx.pubErr with
    | none => simp [publishStep, h, ih, addFold, failuresOf]
    | some e => simp [publishStep, h, ih, addFold, failuresOf]

/-- Helper: once the collector holds a multi error, `Add` only appends. -/
theorem addFold_mterr_ne (es : List SingleTransportError)
    (c : multiTpErrorCollector) (h : c.mterr ≠ []) :
    addFold c es = ⟨c.sterr, c.mterr ++ es⟩ := by
  induction es generalizing c with
  | nil => simp [addFold]
  | cons f rest ih =>
    have hstep : c.Add f.transport f.err = ⟨c.sterr, c.mterr ++ [f]⟩ := by
      simp only [multiTpErrorCollector.Add]
      rw [if_pos (by simpa using h)]
    have h2 : (⟨c.sterr, c.mterr ++ [f]⟩ : multiTpErrorCollector).mterr ≠ [] := by
      simp
    calc addFold c (f :: rest)
        = addFold ⟨c.sterr, c.mterr ++ [f]⟩ rest := by
          simp only [addFold, List.foldl_cons, hstep]
      _ = ⟨c.sterr, c.mterr ++ f :: rest⟩ := by rw [ih _ h2]; simp

/-- Helper: aggregation of a failure list from the empty collector. -/
theorem addFold_from_empty (es : List SingleTransportError) :
    (addFold ⟨none, []⟩ es).GetError =
      (match es with
       | [] => none
       | [f] => some (.single f)
       | fs => some (.multi fs)) := by
  match es with
  | [] => rfl
  | [f] => rfl
  | f1 :: f2 :: rest =>
    have h1 : addFold ⟨none, []⟩ (f1 :: f2 :: rest) = addFold ⟨some f1, [f1, f2]⟩ rest := by
      simp [addFold, multiTpErrorCollector.Add]
    rw [h1, addFold_mterr_ne rest ⟨some f1, [f1, f2]⟩ (by simp)]
    simp [multiTpErrorCollector.GetError]

/-- C3: `MultiTransport.Publish` attempts delivery to every sink exactly once
and in order regardless of failures; zero failing sinks yield no error,
exactly one yields a `SingleTransportError` wrapping the failing sink and its
error, more than one yields a `MultiTransportError` holding all per-sink
errors in order, whose `Error()` text is the first error's text followed by
" (and N-1 more)" for N total failures.  Zero sinks yield no error. -/
theorem C3_multiTransport_publish_aggregation (transports : List Sink) :
    (MultiTransport.Publish transports).1 = transports ∧
    (MultiTransport.Publish transports).2 =
      (match failuresOf transports with
       | [] => none
       | [f] => some (.single f)
       | fs => some (.multi fs)) ∧
    (∀ f1 rest, (MultiTransport.Publish transports).2 = some (.multi (f1 :: rest)) →
      rest ≠ [] ∧
      MultiTransportError.errorText (f1 :: rest) =
        f1.err ++ str " (and " ++ str (toString rest.length) ++ str " more)") := by
  have hfst : (MultiTransport.Publish transports).1 = transports := by
    simp [MultiTransport.Publish, publish_fold_attempts]
  have hsnd : (MultiTransport.Publish transports).2 =
      (match failuresOf transports with
       | [] => none
       | [f] => some (.single f)
       | fs => some (.multi fs)) := by
    simp only [MultiTransport.Publish, publish_fold_collector]
    exact addFold_from_empty (failuresOf transports)
  refine ⟨hfst, hsnd, fun f1 rest h => ?_⟩
  rw [hsnd] at h
  match hes : failuresOf transports with
  | [] => rw [hes] at h; cases h
  | [f] => rw [hes] at h; cases h
  | g1 :: g2 :: grest =>
    rw [hes] at h
    have hlist : g1 :: g2 :: grest = f1 :: rest := by
      cases h with | refl => rfl
    obtain ⟨hg1, hrest⟩ := List.cons.inj hlist
    constructor
    · rw [← hrest]; simp
    · rw [← hrest, ← hg1]
      simp [MultiTransportError.errorText]

/-- Witness for C3 at two failing sinks: the aggregated error text. -/
theorem C3_multiTransport_publish_witness :
    MultiTransportError.errorText
        [⟨⟨1, some (str "e1")⟩, str "e1"⟩, ⟨⟨2, some (str "e2")⟩, str "e2"⟩] =
      str "e1" ++ str " (and " ++ str "1" ++ str " more)" :=
  ((C3_multiTransport_publish_aggregation
      [⟨1, some (str "e1")⟩, ⟨2, some (str "e2")⟩]).2.2
    ⟨⟨1, some (str "e1")⟩, str "e1"⟩ [⟨⟨2, some (str "e2")⟩, str "e2"⟩]
    (by decide)).2

/-- Helper: an exact credential match succeeds without changing the state. -/
theorem passwordCheck_eq (p : Provider) (pw : Str) (hd : p.passwordDisabled = false)
    (h : pw = p.password) : p.PasswordCheck pw = (true, p) := by
  simp [Provider.PasswordCheck, hd, h]

/-- Helper: the auto-password bootstrap branch stores the credential. -/
theorem passwordCheck_bootstrap (p : Provider) (pw : Str)
    (hd : p.passwordDisabled = false) (h1 : pw ≠ p.password) (h2 : p.password = [])
    (h3 : p.opts.autoPassword = true) :
    p.PasswordCheck pw = (true, { p with password := pw }) := by
  have hpw : pw ≠ [] := fun h => h1 (h.trans h2.symm)
  simp [Provider.PasswordCheck, hd, h2, h3, hpw]

/-- Helper: every other enabled check fails without changing the state. -/
theorem passwordCheck_fail (p : Provider) (pw : Str)
    (hd : p.passwordDisabled = false) (h1 : pw ≠ p.password)
    (h2 : p.password = [] → p.opts.autoPassword = false) :
    p.PasswordCheck pw = (false, p) := by
  by_cases hp : p.password = []
  · have hpw : pw ≠ [] := fun h => h1 (h.trans hp.symm)
    simp [Provider.PasswordCheck, hd, hp, h2 hp, hpw]
  · simp [Provider.PasswordCheck, hd, h1, hp]

/-- C7: with checking not disabled, `PasswordCheck pw` succeeds iff `pw`
equals the current password, or the password is unset and auto-password mode
is on — in which case `pw` becomes the password and afterwards exactly that
credential succeeds; a failing check leaves the state unchanged. -/
theorem C7_passwordCheck_exact_or_bootstrap (p : Provider) (pw : Str)
    (hd : p.passwordDisabled = false) :
    ((p.PasswordCheck pw).1 = true ↔
      pw = p.password ∨ (p.password = [] ∧ p.opts.autoPassword = true)) ∧
    ((p.PasswordCheck pw).1 = true → pw ≠ p.password →
      (p.PasswordCheck pw).2.password = pw ∧
      (∀ pw2, (((p.PasswordCheck pw).2.PasswordCheck pw2).1 = true ↔ pw2 = pw))) ∧
    ((p.PasswordCheck pw).1 = false → (p.PasswordCheck pw).2 = p) := by
  by_cases h1 : pw = p.password
  · rw [passwordCheck_eq p pw hd h1]
    refine ⟨iff_of_true rfl (Or.inl h1), ?_, ?_⟩
    · intro _ hne
      exact absurd h1 hne
    · intro hfalse
      simp at hfalse
  · by_cases h2a : p.password = []
    · by_cases h2b : p.opts.autoPassword = true
      · rw [passwordCheck_bootstrap p pw hd h1 h2a h2b]
        have hpw_ne : pw ≠ [] := fun h => h1 (h.trans h2a.symm)
        refine ⟨iff_of_true rfl (Or.inr ⟨h2a, h2b⟩), ?_, ?_⟩
        · intro _ _
          refine ⟨rfl, fun pw2 => ?_⟩
          show (Provider.PasswordCheck ⟨p.opts, pw, p.passwordDisabled⟩ pw2).1 = true
              ↔ pw2 = pw
          by_cases h3 : pw2 = pw
          · rw [passwordCheck_eq ⟨p.opts, pw, p.passwordDisabled⟩ pw2 hd h3]
            exact iff_of_true rfl h3
          · rw [passwordCheck_fail ⟨p.opts, pw, p.passwordDisabled⟩ pw2 hd h3
              (fun h => absurd h hpw_ne)]
            exact iff_of_false (by simp) h3
        · intro hfalse
          simp at hfalse
      · have h2b' : p.opts.autoPassword = false := by
          simpa using h2b
        rw [passwordCheck_fail p pw hd h1 (fun _ => h2b')]
        refine ⟨iff_of_false (by simp) ?_, ?_, fun _ => rfl⟩
        · rintro (h | ⟨_, hb⟩)
          · exact h1 h
          · rw [h2b'] at hb
            cases hb
        · intro htrue
          simp at htrue
    · rw [passwordCheck_fail p pw hd h1 (fun h => absurd h h2a)]
      refine ⟨iff_of_false (by simp) ?_, ?_, fun _ => rfl⟩
      · rintro (h | ⟨ha, _⟩)
        · exact h1 h
        · exact h2a ha
      · intro htrue
        simp at htrue

/-- Witness for C7: with configured password "p1", presenting "p1" succeeds. -/
theorem C7_passwordCheck_witness :
    ((newProvider ⟨str "p1", false⟩).PasswordCheck (str "p1")).1 = true :=
  (C7_passwordCheck_exact_or_bootstrap (newProvider ⟨str "p1", false⟩)
    (str "p1") rfl).1.mpr (Or.inl rfl)

/-- Helper: a provider with the password disabled rejects every call and is
unchanged by it. -/
theorem stepCall_disabled (p : Provider) (c : Call) (h : p.passwordDisabled = true) :
    stepCall p c = (false, p) := by
  cases c with
  | check pw => simp [stepCall, Provider.PasswordCheck, h]
  | skip =>
    by_cases ha : p.opts.autoPassword = true
    · simp [stepCall, Provider.PasswordCheckSkip, ha, h]
    · have ha' : p.opts.autoPassword = false := by simpa using ha
      simp [stepCall, Provider.PasswordCheckSkip, ha']

/-- Helper: every step preserves the read-only options. -/
theorem stepCall_opts (p : Provider) (c : Call) : (stepCall p c).2.opts = p.opts := by
  cases c with
  | check pw =>
    simp only [stepCall, Provider.PasswordCheck]
    split
    · rfl
    · split
      · rfl
      · split
        · rfl
        · rfl
  | skip =>
    simp only [stepCall, Provider.PasswordCheckSkip]
    split
    · rfl
    · split
      · rfl
      · rfl

/-- Helper: a step cannot erase a stored password. -/
theorem stepCall_password_empty (p : Provider) (c : Call)
    (h : (stepCall p c).2.password = []) : p.password = [] := by
  revert h
  cases c with
  | check pw =>
    simp only [stepCall, Provider.PasswordCheck]
    split
    · exact id
    · split
      · exact id
      · split
        · rename_i hc
          intro _
          simp only [Bool.and_eq_true, beq_iff_eq] at hc
          exact hc.1
        · exact id
  | skip =>
    simp only [stepCall, Provider.PasswordCheckSkip]
    split
    · exact id
    · split
      · exact id
      · exact id

/-- Helper: `stateAfter` distributes over append. -/
theorem stateAfter_append (p : Provider) (l1 l2 : List Call) :
    stateAfter p (l1 ++ l2) = stateAfter (stateAfter p l1) l2 := by
  simp [stateAfter, List.foldl_append]

/-- Helper: a disabled provider is a fixed point of every call sequence. -/
theorem stateAfter_disabled (p : Provider) (l : List Call)
    (h : p.passwordDisabled = true) : stateAfter p l = p := by
  induction l generalizing p with
  | nil => rfl
  | cons c rest ih =>
    show stateAfter (stepCall p c).2 rest = p
    rw [stepCall_disabled p c h]
    exact ih p h

/-- Helper: options are preserved along every call sequence. -/
theorem stateAfter_opts (p : Provider) (l : List Call) :
    (stateAfter p l).opts = p.opts := by
  induction l generalizing p with
  | nil => rfl
  | cons c rest ih =>
    show (stateAfter (stepCall p c).2 rest).opts = p.opts
    rw [ih, stepCall_opts]

/-- Helper: a call sequence cannot erase a stored password. -/
theorem stateAfter_password_empty (p : Provider) (l : List Call)
    (h : (stateAfter p l).password = []) : p.password = [] := by
  induction l generalizing p with
  | nil => exact h
  | cons c rest ih =>
    exact stepCall_password_empty p c (ih (stepCall p c).2 h)

/-- Helper: a successful skip implies auto-password mode, no stored password
and an unconsumed token, and consumes the token. -/
theorem skip_true_inv (p : Provider) (h : (p.PasswordCheckSkip).1 = true) :
    p.opts.autoPassword = true ∧ p.passwordDisabled = false ∧ p.password = [] ∧
    p.PasswordCheckSkip = (true, { p with passwordDisabled := true }) := by
  by_cases h1 : p.opts.autoPassword = true
  · by_cases h2 : p.passwordDisabled = true
    · simp [Provider.PasswordCheckSkip, h1, h2] at h
    · have h2' : p.passwordDisabled = false := by simpa using h2
      by_cases h3 : p.password = []
      · exact ⟨h1, h2', h3, by simp [Provider.PasswordCheckSkip, h1, h2', h3]⟩
      · simp [Provider.PasswordCheckSkip, h1, h2', h3] at h
  · have h1' : p.opts.autoPassword = false := by simpa using h1
    simp [Provider.PasswordCheckSkip, h1'] at h

/-- Helper: `take (i+1)` appends the i-th element. -/
theorem take_succ_get (cs : List Call) (i : Nat) (hi : i < cs.length) :
    cs.take (i + 1) = cs.take i ++ [cs.get ⟨i, hi⟩] := by
  rw [List.take_succ]
  congr 1
  rw [List.getElem?_eq_getElem hi]
  rfl

/-- Helper: after a successful skip at position i, every later call fails. -/
theorem skipTrue_later_false (p : Provider) (cs : List Call) (i j : Nat)
    (hi : i < cs.length) (hj : j < cs.length) (hij : i < j)
    (hcall : cs.get ⟨i, hi⟩ = Call.skip)
    (hout : outputAt p cs i hi = true) :
    outputAt p cs j hj = false := by
  have hout' : (stepCall (stateAfter p (cs.take i)) (cs.get ⟨i, hi⟩)).1 = true := hout
  rw [hcall] at hout'
  have h1 : ((stateAfter p (cs.take i)).PasswordCheckSkip).1 = true := hout'
  obtain ⟨ha, hd, hp, heq⟩ := skip_true_inv _ h1
  have hsucc : stateAfter p (cs.take (i + 1)) =
      { stateAfter p (cs.take i) with passwordDisabled := true } := by
    rw [take_succ_get cs i hi, stateAfter_append]
    show (stepCall (stateAfter p (cs.take i)) (cs.get ⟨i, hi⟩)).2 = _
    rw [hcall]
    show ((stateAfter p (cs.take i)).PasswordCheckSkip).2 = _
    rw [heq]
  have hdisj : (stateAfter p (cs.take j)).passwordDisabled = true := by
    have hdecomp : cs.take j = cs.take (i + 1) ++ (cs.drop (i + 1)).take (j - (i + 1)) := by
      rw [← List.take_add]
      congr 1
      omega
    rw [hdecomp, stateAfter_append, hsucc, stateAfter_disabled _ _ rfl]
  show (stepCall (stateAfter p (cs.take j)) (cs.get ⟨j, hj⟩)).1 = false
  rw [stepCall_disabled _ _ hdisj]

/-- Helper: a successful skip at position i needs auto-password mode and an
empty stored password at every point up to i. -/
theorem skipTrue_conditions (p : Provider) (cs : List Call) (i : Nat)
    (hi : i < cs.length) (hcall : cs.get ⟨i, hi⟩ = Call.skip)
    (hout : outputAt p cs i hi = true) :
    (stateAfter p (cs.take i)).opts.autoPassword = true ∧
    (∀ j, j ≤ i → (stateAfter p (cs.take j)).password = []) := by
  have hout' : (stepCall (stateAfter p (cs.take i)) (cs.get ⟨i, hi⟩)).1 = true := hout
  rw [hcall] at hout'
  have h1 : ((stateAfter p (cs.take i)).PasswordCheckSkip).1 = true := hout'
  obtain ⟨ha, hd, hp, _⟩ := skip_true_inv _ h1
  refine ⟨ha, fun j hji => ?_⟩
  have hdecomp : cs.take i = cs.take j ++ (cs.drop j).take (i - j) := by
    rw [← List.take_add]
    congr 1
    omega
  rw [hdecomp, stateAfter_append] at hp
  exact stateAfter_password_empty _ _ hp

/-- C5: over every sequence of `PasswordCheck`/`PasswordCheckSkip` calls on
one provider, a successful skip permanently disables every later call (so the
skip succeeds at most once and no later `PasswordCheck` can succeed), and a
skip succeeds only when auto-password mode is on, no password was configured,
no password was ever stored up to that point (so none was bootstrapped by an
earlier successful check), and no earlier skip succeeded. -/
theorem C5_skip_consumed_once (opts : Options) (cs : List Call) :
    (∀ i j (hi : i < cs.length) (hj : j < cs.length), i < j →
      cs.get ⟨i, hi⟩ = Call.skip →
      outputAt (newProvider opts) cs i hi = true →
      outputAt (newProvider opts) cs j hj = false) ∧
    (∀ i (hi : i < cs.length), cs.get ⟨i, hi⟩ = Call.skip →
      outputAt (newProvider opts) cs i hi = true →
      opts.autoPassword = true ∧ opts.password = [] ∧
      (∀ j, j ≤ i → (stateAfter (newProvider opts) (cs.take j)).password = []) ∧
      (∀ j (hj : j < cs.length), j < i → cs.get ⟨j, hj⟩ = Call.skip →
        outputAt (newProvider opts) cs j hj = false)) := by
  constructor
  · intro i j hi hj hij hcall hout
    exact skipTrue_later_false (newProvider opts) cs i j hi hj hij hcall hout
  · intro i hi hcall hout
    obtain ⟨hauto, hpw⟩ :=
      skipTrue_conditions (newProvider opts) cs i hi hcall hout
    rw [stateAfter_opts] at hauto
    refine ⟨hauto, ?_, hpw, ?_⟩
    · have h0 := hpw 0 (Nat.zero_le i)
      simpa [stateAfter, newProvider] using h0
    · intro j hj hji hcallj
      cases houtj : outputAt (newProvider opts) cs j hj with
      | false => rfl
      | true =>
        have hfalse :=
          skipTrue_later_false (newProvider opts) cs j i hj hi hji hcallj houtj
        rw [hfalse] at hout
        simp at hout

/-- Witness for C5: with auto-password and no configured password, a first
skip succeeds, so the second skip returns false. -/
theorem C5_skip_consumed_once_witness :
    outputAt (newProvider ⟨[], true⟩) [Call.skip, Call.skip] 1 (by decide) = false :=
  (C5_skip_consumed_once ⟨[], true⟩ [Call.skip, Call.skip]).1 0 1
    (by decide) (by decide) (by decide) rfl rfl

/-- Helper: `PasswordCheckSkip` either fails leaving the state unchanged or
succeeds consuming the token. -/
theorem skip_cases (p : Provider) :
    p.PasswordCheckSkip = (false, p) ∨
    p.PasswordCheckSkip = (true, { p with passwordDisabled := true }) := by
  unfold Provider.PasswordCheckSkip
  split
  · exact Or.inl rfl
  · split
    · exact Or.inl rfl
    · exact Or.inr rfl

/-- Helper: a failing skip leaves the provider unchanged. -/
theorem skip_false_snd (p : Provider) (h : (p.PasswordCheckSkip).1 = false) :
    p.PasswordCheckSkip = (false, p) := by
  cases skip_cases p with
  | inl hc => exact hc
  | inr hc =>
    rw [hc] at h
    simp at h

/-- C6 (amended): while a connection is unauthenticated and the one-time skip
is unavailable, the only inbound message accepted as an authentication
attempt is a cmd-typed provider-auth command with at least one argument and
no network identity; a provider-auth command with no arguments or with a
network identity set, any non-auth message, and any undecodable input cause
an error published on that connection's private transport only and leave the
connection unauthenticated (provider state unchanged). -/
theorem C6_unauthed_gate (p : Provider)
    (hskip : (p.PasswordCheckSkip).1 = false) :
    (∀ e, handleUnauthed p (.error e) = (.errPrivate, p)) ∧
    (∀ msg : CmdMsg,
      ¬(IsType msg.type (str "cmd") = true ∧ msg.command = str "provider-auth") →
      handleUnauthed p (.ok msg) = (.errPrivate, p)) ∧
    (∀ msg : CmdMsg, IsType msg.type (str "cmd") = true →
      msg.command = str "provider-auth" → msg.args = [] →
      handleUnauthed p (.ok msg) = (.errPrivate, p)) ∧
    (∀ msg : CmdMsg, IsType msg.type (str "cmd") = true →
      msg.command = str "provider-auth" → msg.network.id ≠ [] →
      handleUnauthed p (.ok msg) = (.errPrivate, p)) ∧
    (∀ msg : CmdMsg, IsType msg.type (str "cmd") = true →
      msg.command = str "provider-auth" → msg.args ≠ [] → msg.network.id = [] →
      handleUnauthed p (.ok msg) =
        (if (p.PasswordCheck (msg.args.headD [])).1 then HandleOutcome.authedOk
         else HandleOutcome.errPrivate,
         (p.PasswordCheck (msg.args.headD [])).2)) := by
  refine ⟨fun e => rfl, ?_, ?_, ?_, ?_⟩
  · intro msg hnot
    have hcond : (IsType msg.type (str "cmd") &&
        (msg.command == str "provider-auth")) = false := by
      by_cases hA : IsType msg.type (str "cmd") = true
      · by_cases hB : msg.command = str "provider-auth"
        · exact absurd ⟨hA, hB⟩ hnot
        · simp [hA, hB]
      · have hA' : IsType msg.type (str "cmd") = false := by simpa using hA
        simp [hA']
    simp only [handleUnauthed, hcond, Bool.false_eq_true, if_false]
    rw [skip_false_snd p hskip]
  · intro msg hA hB hargs
    have hcond : (IsType msg.type (str "cmd") &&
        (msg.command == str "provider-auth")) = true := by
      simp [hA, hB]
    simp [handleUnauthed, hcond, hargs]
  · intro msg hA hB hnet
    have hcond : (IsType msg.type (str "cmd") &&
        (msg.command == str "provider-auth")) = true := by
      simp [hA, hB]
    by_cases hargs : msg.args = []
    · simp [handleUnauthed, hcond, hargs]
    · have hlen : ¬(msg.args.length < 1) := by
        cases hargs2 : msg.args with
        | nil => exact absurd hargs2 hargs
        | cons a l => simp
      simp [handleUnauthed, hcond, hlen, hnet]
  · intro msg hA hB hargs hnet
    have hcond : (IsType msg.type (str "cmd") &&
        (msg.command == str "provider-auth")) = true := by
      simp [hA, hB]
    have hlen : ¬(msg.args.length < 1) := by
      cases hargs2 : msg.args with
      | nil => exact absurd hargs2 hargs
      | cons a l => simp
    rcases hpc : p.PasswordCheck (msg.args.headD []) with ⟨b, p1⟩
    have hpc2 : p.PasswordCheck (msg.args.head?.getD []) = (b, p1) := by
      rw [← List.headD_eq_head?_getD]
      exact hpc
    cases b with
    | false => simp [handleUnauthed, hcond, hlen, hnet, hpc, hpc2]
    | true => simp [handleUnauthed, hcond, hlen, hnet, hpc, hpc2]

/-- C6 counterexample: the claim requires "exactly one argument", but a
provider-auth command with two arguments and the correct credential is
accepted (the source checks `len(msg.Args) < 1`, i.e. at least one). -/
theorem C6_two_arg_auth_accepted :
    (handleUnauthed (newProvider ⟨str "p1", false⟩)
        (.ok ⟨⟨⟨str "cmd"⟩, str "9", [], 0, [], []⟩, ⟨⟨[], [], []⟩, ⟨[]⟩⟩,
          str "provider-auth", [str "p1", str "x"]⟩)).1 = HandleOutcome.authedOk ∧
    ([str "p1", str "x"] : List Str).length = 2 := by
  exact ⟨by decide, by decide⟩

/-- Witness for C6 at a concrete provider (password "p1", no auto mode, so
the skip is unavailable) and a non-auth message: a private error and an
unchanged provider. -/
theorem C6_unauthed_gate_witness :
    handleUnauthed (newProvider ⟨str "p1", false⟩)
        (.ok ⟨⟨⟨str "msg"⟩, str "8", [], 0, [], []⟩, ⟨⟨[], [], []⟩, ⟨[]⟩⟩,
          str "x", []⟩)
      = (HandleOutcome.errPrivate, newProvider ⟨str "p1", false⟩) :=
  (C6_unauthed_gate (newProvider ⟨str "p1", false⟩) (by decide)).2.1
    ⟨⟨⟨str "msg"⟩, str "8", [], 0, [], []⟩, ⟨⟨[], [], []⟩, ⟨[]⟩⟩, str "x", []⟩
    (by decide)

/-- C10 counterexample: bytes containing the substring `"cmd` that fail to
decode as a `CmdMsg` but decode as a valid `ChatMsg` (realizable, e.g. a chat
message whose `replyTo` string contains an escaped quote before `cmd` and
which carries a non-array `args` field) make `DispatchMsg` return the CmdMsg
decode error; the message is not delivered to `Handler`, contrary to the
claim's "every other input that parses is decoded as a ChatMsg and delivered
to the receiver's Handler". -/
theorem C10_cmd_decode_error_preempts_handler :
    DispatchMsg ⟨true, .error (str "e"), .ok chatExample⟩ = .err (str "e") ∧
    (⟨true, .error (str "e"), .ok chatExample⟩ : RawDispatch).asChat
      = .ok chatExample ∧
    decide (DispatchMsg ⟨true, .error (str "e"), .ok chatExample⟩
      = .chatHandled chatExample) = false := by
  exact ⟨rfl, rfl, by decide⟩

/-- C10 (amended): `DispatchMsg` routes to the receiver's `CmdHandler`
exactly when the raw bytes contain the byte substring `"cmd` AND the bytes
decode to a `CmdMsg` whose type tag is-a "cmd"; an input containing the
substring that fails the CmdMsg decode yields that decode error (the chat
decode is not attempted); every other input that decodes as a `ChatMsg` is
delivered to the receiver's `Handler` — in particular a decodable
non-cmd-typed message whose bytes contain the substring, and a cmd-typed
message is never delivered to `CmdHandler` when the substring is absent. -/
theorem C10_dispatch_routing (r : RawDispatch) :
    (∀ m, DispatchMsg r = .cmdHandled m ↔
      (r.containsCmdQuote = true ∧ r.asCmd = .ok m ∧
        IsType m.type (str "cmd") = true)) ∧
    (∀ e, r.containsCmdQuote = true → r.asCmd = .error e →
      DispatchMsg r = .err e) ∧
    (∀ m mc, r.asChat = .ok m → r.containsCmdQuote = true → r.asCmd = .ok mc →
      IsType mc.type (str "cmd") = false → DispatchMsg r = .chatHandled m) ∧
    (∀ m, r.asChat = .ok m → r.containsCmdQuote = false →
      DispatchMsg r = .chatHandled m) := by
  refine ⟨?_, ?_, ?_, ?_⟩
  · intro m
    constructor
    · intro h
      by_cases hq : r.containsCmdQuote = true
      · cases hcmd : r.asCmd with
        | error e => simp [DispatchMsg, hq, hcmd] at h
        | ok mc =>
          by_cases ht : IsType mc.type (str "cmd") = true
          · simp [DispatchMsg, hq, hcmd, ht] at h
            subst h
            exact ⟨hq, rfl, ht⟩
          · have ht' : IsType mc.type (str "cmd") = false := by simpa using ht
            cases hchat : r.asChat with
            | error e =>
              simp [DispatchMsg, dispatchChatPath, hq, hcmd, ht', hchat] at h
            | ok mm =>
              simp [DispatchMsg, dispatchChatPath, hq, hcmd, ht', hchat] at h
      · have hq' : r.containsCmdQuote = false := by simpa using hq
        cases hchat : r.asChat with
        | error e => simp [DispatchMsg, dispatchChatPath, hq', hchat] at h
        | ok mm => simp [DispatchMsg, dispatchChatPath, hq', hchat] at h
    · rintro ⟨hq, hcmd, ht⟩
      simp [DispatchMsg, hq, hcmd, ht]
  · intro e hq hcmd
    simp [DispatchMsg, hq, hcmd]
  · intro m mc hchat hq hcmd ht
    simp [DispatchMsg, dispatchChatPath, hq, hcmd, ht, hchat]
  · intro m hchat hq
    simp [DispatchMsg, dispatchChatPath, hq, hchat]

/-- Witness for C10: a cmd-typed decodable input whose bytes contain the
substring routes to `CmdHandler`. -/
theorem C10_dispatch_routing_witness :
    DispatchMsg ⟨true, .ok cmdExample, .ok chatExample⟩ = .cmdHandled cmdExample :=
  ((C10_dispatch_routing ⟨true, .ok cmdExample, .ok chatExample⟩).1 cmdExample).mpr
    ⟨rfl, rfl, by decide⟩

end Stdchat
